import Mathlib

/-!
Shallow embedding of `examples/data_channel/sportmode/sportmode_debug.py`
(repository `gomtam/go2_webrtc_connect`).

The script is a linear asyncio demo: a `GracefulKiller` signal flag, a
`connect_with_retry` bootstrap loop, and a `main` coroutine that issues a
fixed sequence of publish requests and sleeps, wrapped in try/except/finally
handlers, with `sys.exit(0)` at the very end.

Modelling conventions:
* An awaited call either returns normally or raises an exception value
  (`Except Exn`); `except Exception` clauses are modelled by matching on the
  `.error` constructor.  The script installs its own SIGINT/SIGTERM handlers
  (replacing the `KeyboardInterrupt`-raising default), so every exception the
  awaited calls can deliver to these handlers is an `Exception`-level one.
* The cooperative shutdown flag can only change while the coroutine is
  suspended at a pause or wait point.  A logical clock counts completed waits
  (`wait_datachannel_open` and each `asyncio.sleep`); the environment fixes
  an optional arrival clock for the signal, and a read of `killer.kill_now`
  at clock `t` returns whether the signal has arrived by `t`.
* Each publish/connect call outcome is drawn from the environment, indexed by
  the call's sequence number, so every behaviour of the external driver is a
  choice of environment.
-/

/-- Exception-level Python exceptions that the script's handlers distinguish:
`asyncio.TimeoutError`, `ConnectionError`, the `UnboundLocalError` arising
from reading a never-assigned local, and any other `Exception`. -/
inductive Exn where
  | timeout
  | connection
  | unboundLocal (varName : String)
  | other (msg : String)
deriving DecidableEq, Repr

/-- Result of one run of `connect_with_retry`: how many `conn.connect()`
attempts were made, how many `asyncio.sleep(delay)` calls were made, and the
value returned (or, in the `.error` case, an exception escaping the
function — no branch of the source produces one, which is the content of the
never-raises claim). -/
structure RetryOut where
  attempts : Nat
  sleeps : Nat
  ret : Except Exn Bool
deriving Repr

/-- Loop body of `connect_with_retry`, lines 27-40 of the source.  `c i` is
the outcome of the `i`-th `conn.connect()` call; `a` is the current value of
`attempt`; the `Nat` argument is the number of loop iterations left,
`max_retries - attempt`.  The `match` on `c a` is the
`try`/`except Exception` pair around the connect call: a `.error` outcome is
consumed there, printed, and either followed by a sleep and the next
iteration (when `attempt < max_retries - 1`) or by `return False`. -/
def retryGo (c : Nat → Except Exn Unit) (a : Nat) : Nat → RetryOut
  | 0 => ⟨0, 0, .ok false⟩
  | n + 1 =>
    match c a with
    | .ok _ => ⟨1, 0, .ok true⟩
    | .error _ =>
      if n = 0 then
        ⟨1, 0, .ok false⟩
      else
        let r := retryGo c (a + 1) n
        ⟨r.attempts + 1, r.sleeps + 1, r.ret⟩

/-- `connect_with_retry(conn, max_retries, delay)` (source lines 25-41).
`max_retries` is a Python `int`, so it is modelled as `Int`; `range(m)` is
empty for `m ≤ 0`, which `Int.toNat` captures.  The `delay` argument only
fixes the duration of each counted sleep and plays no further role. -/
def connect_with_retry (c : Nat → Except Exn Unit) (max_retries : Int := 3) :
    RetryOut :=
  retryGo c 0 max_retries.toNat

/-- Modelled from the spec: the first attempt index (offset from `a`, within
the next `n` attempts) at which the underlying connect operation succeeds.
This is the spec-side description ("until the first success") that the
retry loop is compared against. -/
def specFirstSuccess (c : Nat → Except Exn Unit) (a : Nat) : Nat → Option Nat
  | 0 => none
  | n + 1 =>
    match c a with
    | .ok _ => some 0
    | .error _ => (specFirstSuccess c (a + 1) n).map (· + 1)

/-- Characterisation of the retry loop by the first successful attempt. -/
theorem retryGo_eq_spec (c : Nat → Except Exn Unit) (a n : Nat) :
    retryGo c a n =
      match specFirstSuccess c a n with
      | some k => ⟨k + 1, k, .ok true⟩
      | none => ⟨n, n - 1, .ok false⟩ := by
  induction n generalizing a with
  | zero => simp [retryGo, specFirstSuccess]
  | succ n ih =>
    simp only [retryGo, specFirstSuccess]
    cases hc : c a with
    | ok u => simp
    | error e =>
      cases n with
      | zero => simp [specFirstSuccess]
      | succ m =>
        simp only [Nat.succ_ne_zero, if_false]
        rw [ih (a + 1)]
        cases hs : specFirstSuccess c (a + 1) (m + 1) with
        | none => simp
        | some k => simp

/-- A `specFirstSuccess` hit is exactly a successful attempt in range. -/
theorem specFirstSuccess_isSome_iff (c : Nat → Except Exn Unit) (a n : Nat) :
    (specFirstSuccess c a n).isSome = true ↔
      ∃ i, i < n ∧ (c (a + i)).isOk = true := by
  induction n generalizing a with
  | zero => simp [specFirstSuccess]
  | succ n ih =>
    simp only [specFirstSuccess]
    cases hc : c a with
    | ok u =>
      simp only [Option.isSome_some, true_iff]
      exact ⟨0, Nat.succ_pos n, by simp [hc, Except.isOk, Except.toBool]⟩
    | error e =>
      show (Option.map (· + 1) (specFirstSuccess c (a + 1) n)).isSome = true ↔ _
      have key : (Option.map (· + 1) (specFirstSuccess c (a + 1) n)).isSome
          = (specFirstSuccess c (a + 1) n).isSome := by
        cases specFirstSuccess c (a + 1) n <;> rfl
      rw [key, ih (a + 1)]
      constructor
      · rintro ⟨i, hi, hok⟩
        exact ⟨i + 1, by omega, by simpa [Nat.add_assoc, Nat.add_comm 1 i] using hok⟩
      · rintro ⟨i, hi, hok⟩
        cases i with
        | zero =>
          simp [hc, Except.isOk, Except.toBool] at hok
        | succ j =>
          exact ⟨j, by omega, by simpa [Nat.add_assoc, Nat.add_comm 1 j] using hok⟩

/-- Bound on the index returned by `specFirstSuccess`. -/
theorem specFirstSuccess_lt (c : Nat → Except Exn Unit) (a n k : Nat)
    (h : specFirstSuccess c a n = some k) : k < n := by
  induction n generalizing a k with
  | zero => simp [specFirstSuccess] at h
  | succ n ih =>
    simp only [specFirstSuccess] at h
    cases hc : c a with
    | ok u => simp [hc] at h; omega
    | error e =>
      simp only [hc] at h
      cases hs : specFirstSuccess c (a + 1) n with
      | none => simp [hs] at h
      | some j =>
        simp [hs] at h
        have := ih (a + 1) j hs
        omega

/-! ## The GracefulKiller shutdown flag (source lines 15-23) -/

/-- Operations touching the `GracefulKiller` state: the registered handler
`_handle_signal` (for SIGINT or SIGTERM), and a read of `kill_now`.  These
are the only accesses to the flag anywhere in the script. -/
inductive KillerEvent where
  | handleSignal (signum : Nat)
  | readFlag
deriving DecidableEq, Repr

/-- State of a `GracefulKiller` instance. -/
structure GracefulKiller where
  kill_now : Bool
deriving DecidableEq, Repr

/-- `GracefulKiller.__init__`: the flag starts out `False`. -/
def killerInit : GracefulKiller := ⟨false⟩

/-- Effect of one event on the flag: `_handle_signal` sets it to `True`
(source line 23); a read leaves the state unchanged. -/
def killerStep (s : GracefulKiller) : KillerEvent → GracefulKiller
  | .handleSignal _ => ⟨true⟩
  | .readFlag => s

/-- The flag after a sequence of events starting from state `s`. -/
def killerRun (s : GracefulKiller) (evs : List KillerEvent) : GracefulKiller :=
  evs.foldl killerStep s

/-! ## Requests and the command sequencer (source lines 43-197) -/

/-- Modelled from the spec: `RTC_TOPIC` lives in `go2_webrtc_driver.constants`,
which is absent from the provided sources; the spec treats it as a fixed
registry mapping logical topic names to opaque wire identifiers, so it is
modelled as the identity on the logical names used by the script. -/
def RTC_TOPIC (key : String) : String := key

/-- An `api_id` value: either a numeric literal from the script (1001, 1002)
or an entry of the `SPORT_CMD` registry, which is absent from the provided
sources and is kept opaque (identified by its logical command name). -/
inductive ApiId where
  | lit (n : Nat)
  | sport (cmd : String)
deriving DecidableEq, Repr

/-- The `parameter` payload of a publish request, as built by the script. -/
inductive Param where
  | noParam
  | nameArg (s : String)
  | move (x y z : ℚ)
  | dataArg (b : Bool)
deriving DecidableEq, Repr

/-- A call to `publish_request_new`: topic, `api_id`, and parameter. -/
structure Request where
  topic : String
  api_id : ApiId
  parameter : Param
deriving DecidableEq, Repr

/-- The motion-switcher status query, `{"api_id": 1001}` (lines 71-74). -/
def queryModeReq : Request := ⟨RTC_TOPIC "MOTION_SWITCHER", .lit 1001, .noParam⟩

/-- The switch to `"normal"` mode, api_id 1002 (lines 84-90). -/
def switchNormalReq : Request :=
  ⟨RTC_TOPIC "MOTION_SWITCHER", .lit 1002, .nameArg "normal"⟩

/-- The `Hello` gesture (lines 98-101). -/
def helloReq : Request := ⟨RTC_TOPIC "SPORT_MOD", .sport "Hello", .noParam⟩

/-- The forward move, x = 0.5 (lines 107-113). -/
def moveForwardReq : Request :=
  ⟨RTC_TOPIC "SPORT_MOD", .sport "Move", .move 0.5 0 0⟩

/-- The backward move, x = -0.5 (lines 122-128). -/
def moveBackwardReq : Request :=
  ⟨RTC_TOPIC "SPORT_MOD", .sport "Move", .move (-0.5) 0 0⟩

/-- The switch to `"ai"` mode, api_id 1002 (lines 139-145). -/
def switchAiReq : Request :=
  ⟨RTC_TOPIC "MOTION_SWITCHER", .lit 1002, .nameArg "ai"⟩

/-- `StandOut` with data `True` (lines 153-159). -/
def standOutTrueReq : Request :=
  ⟨RTC_TOPIC "SPORT_MOD", .sport "StandOut", .dataArg true⟩

/-- `StandOut` with data `False` (lines 165-171). -/
def standOutFalseReq : Request :=
  ⟨RTC_TOPIC "SPORT_MOD", .sport "StandOut", .dataArg false⟩

/-- The part of a publish response that the script inspects: the nested
status code `response['data']['header']['status']['code']` and the `name`
field of the JSON-decoded `response['data']['data']`. -/
structure Resp where
  code : Int
  name : String
deriving DecidableEq, Repr

/-- Observable events of the command sequencer.  Each event records the
logical clock at which it happens; the clock counts completed waits
(`wait_datachannel_open` and each `asyncio.sleep`), so a `sleep`/`waitDC`
event carries the clock value reached by its own wake. -/
inductive Event where
  | waitDC (clock : Nat)
  | request (clock : Nat) (r : Request)
  | sleep (clock : Nat) (secs : Nat)
deriving DecidableEq, Repr

/-- Environment fixing one behaviour of the external driver and of the
operator: the outcome of the `i`-th `conn.connect()` call, the outcome of
`wait_datachannel_open`, the outcome of the `i`-th `publish_request_new`
call, and the wake index (if any) by which a SIGINT/SIGTERM signal has set
the shutdown flag.  The flag can only change while the coroutine is
suspended at a wait, so its value is a function of the clock. -/
structure Env where
  connect : Nat → Except Exn Unit
  dcOpen : Except Exn Unit
  pub : Nat → Except Exn Resp
  sigTime : Option Nat

/-- Value of `killer.kill_now` when read at clock `t`. -/
def flagAt (env : Env) (t : Nat) : Bool :=
  match env.sigTime with
  | some s => decide (s ≤ t)
  | none => false

/-- Assignment of `current_motion_switcher_mode` from the query response
(lines 76-78): the variable is bound only when the nested status code is 0;
otherwise it stays unset, which `none` records. -/
def modeAfterQuery (code : Int) (name : String) : Option String :=
  if code = 0 then some name else none

/-- The idle loop of lines 175-178: up to `fuel` iterations, each first
reading `killer.kill_now` (breaking out if set) and then sleeping one
second. -/
def idleLoop (env : Env) (c : Nat) : Nat → List Event
  | 0 => []
  | fuel + 1 =>
    if flagAt env c then []
    else .sleep (c + 1) 1 :: idleLoop env (c + 1) fuel

/-- The tail of the sequence from the `Hello` gesture onward (lines
96-178), entered with `p` publish calls already made and the clock at `c`.
Publishes are awaited bare, so a `.error` outcome aborts the remainder and
propagates; the `kill_now` checks of lines 117, 132 and 148 appear as flag
reads at the wake clocks; note there is no check between the 1-second sleep
after `Hello` and the forward move, nor between the 5-second sleep after
`StandOut`-true and `StandOut`-false. -/
def seqTail (env : Env) (p c : Nat) : List Event × Except Exn Unit :=
  match env.pub p with
  | .error e => ([.request c helloReq], .error e)
  | .ok _ =>
    let t1 : List Event := [.request c helloReq, .sleep (c + 1) 1]
    match env.pub (p + 1) with
    | .error e => (t1 ++ [.request (c + 1) moveForwardReq], .error e)
    | .ok _ =>
      let t2 := t1 ++ [.request (c + 1) moveForwardReq, .sleep (c + 2) 3]
      if flagAt env (c + 2) then (t2, .ok ()) else
      match env.pub (p + 2) with
      | .error e => (t2 ++ [.request (c + 2) moveBackwardReq], .error e)
      | .ok _ =>
        let t3 := t2 ++ [.request (c + 2) moveBackwardReq, .sleep (c + 3) 3]
        if flagAt env (c + 3) then (t3, .ok ()) else
        match env.pub (p + 3) with
        | .error e => (t3 ++ [.request (c + 3) switchAiReq], .error e)
        | .ok _ =>
          let t4 := t3 ++ [.request (c + 3) switchAiReq, .sleep (c + 4) 10]
          if flagAt env (c + 4) then (t4, .ok ()) else
          match env.pub (p + 4) with
          | .error e => (t4 ++ [.request (c + 4) standOutTrueReq], .error e)
          | .ok _ =>
            let t5 := t4 ++ [.request (c + 4) standOutTrueReq, .sleep (c + 5) 5]
            match env.pub (p + 5) with
            | .error e => (t5 ++ [.request (c + 5) standOutFalseReq], .error e)
            | .ok _ =>
              (t5 ++ [.request (c + 5) standOutFalseReq]
                  ++ idleLoop env (c + 5) 600, .ok ())

/-- Result of the `main` coroutine body (the `try` suite, lines 47-178):
the sequencer trace, the outcome (`.ok ()` for normal completion or an
early `return`, `.error e` for a raised exception), and the value of
`current_motion_switcher_mode` as of the decision point of line 82
(`none` when the decision point was not reached or the variable was
unset there). -/
structure BodyOut where
  trace : List Event
  outcome : Except Exn Unit
  modeAtDecision : Option String
deriving Repr

/-- The `try` suite of `main` (lines 47-178).  `connect_with_retry` is
called with its defaults (line 57); a `False` result triggers an early
`return`.  `wait_datachannel_open` may raise (line 62).  The `kill_now`
checks of lines 64 and 93 read the flag at the current clock.  When the
status code of the query response is nonzero, `current_motion_switcher_mode`
is never assigned, so the comparison of line 82 raises `UnboundLocalError`. -/
def mainBody (env : Env) : BodyOut :=
  match (connect_with_retry env.connect 3).ret with
  | .ok true =>
    match env.dcOpen with
    | .error e => ⟨[], .error e, none⟩
    | .ok _ =>
      if flagAt env 1 then ⟨[.waitDC 1], .ok (), none⟩
      else
        match env.pub 0 with
        | .error e => ⟨[.waitDC 1, .request 1 queryModeReq], .error e, none⟩
        | .ok resp =>
          let head : List Event := [.waitDC 1, .request 1 queryModeReq]
          match modeAfterQuery resp.code resp.name with
          | none =>
            ⟨head, .error (.unboundLocal "current_motion_switcher_mode"), none⟩
          | some m =>
            if m ≠ "normal" then
              match env.pub 1 with
              | .error e => ⟨head ++ [.request 1 switchNormalReq], .error e, some m⟩
              | .ok _ =>
                let head2 := head ++ [.request 1 switchNormalReq, .sleep 2 5]
                if flagAt env 2 then ⟨head2, .ok (), some m⟩
                else
                  let r := seqTail env 2 2
                  ⟨head2 ++ r.1, r.2, some m⟩
            else
              if flagAt env 1 then ⟨head, .ok (), some m⟩
              else
                let r := seqTail env 1 1
                ⟨head ++ r.1, r.2, some m⟩
  | _ => ⟨[], .ok (), none⟩

/-- Which `except` clause of `main` (lines 180-188) an exception lands in. -/
inductive Handler where
  | timeoutH
  | connectionH
  | catchAll
deriving DecidableEq, Repr

/-- Dispatch of lines 180-188: `except asyncio.TimeoutError`, then
`except ConnectionError`, then `except Exception` — which catches every
remaining exception-level value, so no exception goes unmatched. -/
def catchesExn : Exn → Option Handler
  | .timeout => some .timeoutH
  | .connection => some .connectionH
  | _ => some .catchAll

/-- Observable outcome of one call of `main()`: the sequencer trace, the
mode variable at the decision point, the `except` clause that ran (if any),
how many times the `finally` block of lines 189-197 ran, and the exception
escaping `main` (if any). -/
structure MainOut where
  trace : List Event
  modeAtDecision : Option String
  caught : Option Handler
  cleanupRan : Nat
  raisedPastMain : Option Exn
deriving Repr

/-- `main()` with its `try`/`except`/`finally` (lines 47-197): the body
runs, a raised exception is matched against the `except` clauses, and the
`finally` block runs exactly once on every path (normal return, handled
exception, or unhandled exception).  The cleanup suite itself wraps its
work in `try`/`except Exception` (lines 192-197), so it completes on every
path. -/
def mainRun (env : Env) : MainOut :=
  let b := mainBody env
  match b.outcome with
  | .ok _ => ⟨b.trace, b.modeAtDecision, none, 1, none⟩
  | .error e =>
    match catchesExn e with
    | some h => ⟨b.trace, b.modeAtDecision, some h, 1, none⟩
    | none => ⟨b.trace, b.modeAtDecision, none, 1, some e⟩

/-- The `__main__` block (lines 199-209): `asyncio.run(main())` inside
`try`/`except KeyboardInterrupt`/`except Exception`/`finally: sys.exit(0)`.
Whatever escapes `main` is caught here, and the `finally` clause exits the
process with status 0 on every path. -/
def exitCode (env : Env) : Nat :=
  match (mainRun env).raisedPastMain with
  | none => 0
  | some _ => 0

/-- Requests of a trace, in order. -/
def requestsOf (tr : List Event) : List Request :=
  tr.filterMap fun e =>
    match e with
    | .request _ r => some r
    | _ => none

/-- Sleep durations of a trace, in order. -/
def sleepsOf (tr : List Event) : List Nat :=
  tr.filterMap fun e =>
    match e with
    | .sleep _ s => some s
    | _ => none

/-- Formal statement of the cancellation claim as written: every request of
the run is issued at a clock at which the shutdown flag is not (yet) set,
i.e. no request follows a wake at which the flag was already set. -/
def noRequestAfterKill (env : Env) : Bool :=
  (mainBody env).trace.all fun e =>
    match e with
    | .request t _ => !flagAt env t
    | _ => true

/-- One event of the amended cancellation property: a request issued at a
clock at which the flag is already set can only be the forward move (whose
preceding 1-second pause is not followed by a check) or the
`StandOut`-false request (whose preceding 5-second pause is not followed by
a check); sleeps and the datachannel wait are unconstrained. -/
def killOkEvent (env : Env) (e : Event) : Bool :=
  match e with
  | .request t r =>
    !flagAt env t || (r = moveForwardReq || r = standOutFalseReq)
  | _ => true

/-- The amended cancellation property over the whole run. -/
def killRespected (env : Env) : Bool :=
  (mainBody env).trace.all (killOkEvent env)

/-! ## Helper lemmas and stubs for the retry loop -/

/-- A connect stub that fails on its first two attempts and then succeeds. -/
def stubFailTwice : Nat → Except Exn Unit :=
  fun i => if i < 2 then .error .connection else .ok ()

/-- A connect stub that fails on every attempt. -/
def stubAlwaysFail : Nat → Except Exn Unit := fun _ => .error .connection

theorem specFirstSuccess_alwaysFail (a n : Nat) :
    specFirstSuccess stubAlwaysFail a n = none := by
  induction n generalizing a with
  | zero => rfl
  | succ n ih => simp [specFirstSuccess, stubAlwaysFail, ih]

theorem specFirstSuccess_none_iff (c : Nat → Except Exn Unit) (a n : Nat) :
    specFirstSuccess c a n = none ↔ ¬ ∃ i, i < n ∧ (c (a + i)).isOk = true := by
  rw [← specFirstSuccess_isSome_iff c a n]
  cases specFirstSuccess c a n <;> simp

/-! ## Theorems for the connection bootstrapper -/

/-- C1: with `max_retries ≥ 1`, `connect_with_retry` returns true exactly
when one of the first `max_retries` attempts succeeds, makes one attempt per
iteration up to the first success (or all `max_retries` of them), sleeps
once after every failed attempt except the last attempt made; with a stub
failing twice then succeeding it makes 3 attempts, 2 sleeps and returns
true, and with an always-failing stub it makes `max_retries` attempts,
`max_retries - 1` sleeps, and returns false. -/
theorem connect_with_retry_spec (c : Nat → Except Exn Unit) (m : Int)
    (hm : 1 ≤ m) :
    ((connect_with_retry c m).ret = .ok true ↔
        ∃ i, i < m.toNat ∧ (c i).isOk = true)
    ∧ (connect_with_retry c m).attempts =
        (match specFirstSuccess c 0 m.toNat with
         | some k => k + 1
         | none => m.toNat)
    ∧ (connect_with_retry c m).sleeps = (connect_with_retry c m).attempts - 1
    ∧ connect_with_retry stubFailTwice 3 = ⟨3, 2, .ok true⟩
    ∧ connect_with_retry stubAlwaysFail m = ⟨m.toNat, m.toNat - 1, .ok false⟩ := by
  have hm' : 1 ≤ m.toNat := by omega
  refine ⟨?_, ?_, ?_, by rfl, ?_⟩
  · rw [connect_with_retry, retryGo_eq_spec]
    cases hs : specFirstSuccess c 0 m.toNat with
    | none =>
      simp only []
      constructor
      · intro h; simp at h
      · intro h
        rw [specFirstSuccess_none_iff] at hs
        exact absurd (by simpa using h) hs
    | some k =>
      simp only []
      constructor
      · intro _
        have : (specFirstSuccess c 0 m.toNat).isSome = true := by simp [hs]
        rw [specFirstSuccess_isSome_iff] at this
        simpa using this
      · intro _; trivial
  · rw [connect_with_retry, retryGo_eq_spec]
    cases hs : specFirstSuccess c 0 m.toNat <;> simp
  · rw [connect_with_retry, retryGo_eq_spec]
    cases hs : specFirstSuccess c 0 m.toNat <;> simp
  · rw [connect_with_retry, retryGo_eq_spec, specFirstSuccess_alwaysFail]

/-- C1 witness: the two stub scenarios at `max_retries = 3`. -/
theorem connect_with_retry_spec_witness :
    connect_with_retry stubFailTwice 3 = ⟨3, 2, .ok true⟩
    ∧ connect_with_retry stubAlwaysFail 3 = ⟨3, 2, .ok false⟩ := by
  refine ⟨(connect_with_retry_spec stubFailTwice 3 (by norm_num)).2.2.2.1, ?_⟩
  have h := (connect_with_retry_spec stubAlwaysFail 3 (by norm_num)).2.2.2.2
  simpa using h

/-- C2: for every behaviour of the underlying connect operation and every
`max_retries`, `connect_with_retry` returns a boolean rather than raising
(the per-attempt `except Exception` consumes every exception the attempt
delivers), and the boolean is true exactly on success of some attempt. -/
theorem connect_with_retry_never_raises (c : Nat → Except Exn Unit) (m : Int) :
    ∃ b : Bool, (connect_with_retry c m).ret = .ok b
      ∧ (b = true ↔ ∃ i, i < m.toNat ∧ (c i).isOk = true) := by
  rw [connect_with_retry, retryGo_eq_spec]
  cases hs : specFirstSuccess c 0 m.toNat with
  | none =>
    refine ⟨false, by simp, ?_⟩
    rw [specFirstSuccess_none_iff] at hs
    simpa using hs
  | some k =>
    refine ⟨true, by simp, ?_⟩
    have : (specFirstSuccess c 0 m.toNat).isSome = true := by simp [hs]
    rw [specFirstSuccess_isSome_iff] at this
    simpa using this

/-- C9: with `max_retries ≤ 0` the loop body never runs: zero attempts,
zero sleeps, and the fall-through `return False` of line 41 is reached. -/
theorem connect_with_retry_nonpos (c : Nat → Except Exn Unit) (m : Int)
    (hm : m ≤ 0) : connect_with_retry c m = ⟨0, 0, .ok false⟩ := by
  rw [connect_with_retry, Int.toNat_of_nonpos hm]
  rfl

/-- C9 witness: `max_retries = -2` on an always-failing stub. -/
theorem connect_with_retry_nonpos_witness :
    connect_with_retry stubAlwaysFail (-2) = ⟨0, 0, .ok false⟩ :=
  connect_with_retry_nonpos stubAlwaysFail (-2) (by norm_num)

/-! ## Theorem for the shutdown flag -/

/-- C10: `kill_now` is initialized to false; the only mutating operation is
the signal handler, which sets it to true; reads leave it unchanged; and
once true it stays true under any further sequence of events. -/
theorem killer_flag_monotone :
    killerInit.kill_now = false
    ∧ (∀ evs : List KillerEvent, (killerRun ⟨true⟩ evs).kill_now = true)
    ∧ (∀ s : GracefulKiller, ∀ n : Nat, killerStep s (.handleSignal n) = ⟨true⟩)
    ∧ (∀ s : GracefulKiller, killerStep s .readFlag = s) := by
  refine ⟨rfl, ?_, fun s n => rfl, fun s => rfl⟩
  intro evs
  induction evs with
  | nil => rfl
  | cons e evs ih =>
    have hstep : killerStep ⟨true⟩ e = ⟨true⟩ := by
      cases e <;> rfl
    show (killerRun (killerStep ⟨true⟩ e) evs).kill_now = true
    rw [hstep]
    exact ih

/-! ## Helper lemmas for the command sequencer -/

theorem flagAt_noSig (env : Env) (h : env.sigTime = none) (t : Nat) :
    flagAt env t = false := by
  simp [flagAt, h]

theorem idleLoop_all_killOk (env : Env) :
    ∀ fuel c, (idleLoop env c fuel).all (killOkEvent env) = true := by
  intro fuel
  induction fuel with
  | zero => intro c; rfl
  | succ n ih =>
    intro c
    rw [idleLoop]
    by_cases h : flagAt env c = true
    · simp [h]
    · simp [h, ih (c + 1), killOkEvent]

theorem requestsOf_idleLoop (env : Env) :
    ∀ fuel c, requestsOf (idleLoop env c fuel) = [] := by
  intro fuel
  induction fuel with
  | zero => intro c; rfl
  | succ n ih =>
    intro c
    rw [idleLoop]
    by_cases h : flagAt env c = true
    · simp [h, requestsOf]
    · have := ih (c + 1)
      simp only [requestsOf] at this ⊢
      simp [h, List.filterMap_cons, this]

theorem sleepsOf_idleLoop_noSig (env : Env) (h : env.sigTime = none) :
    ∀ fuel c, sleepsOf (idleLoop env c fuel) = List.replicate fuel 1 := by
  intro fuel
  induction fuel with
  | zero => intro c; rfl
  | succ n ih =>
    intro c
    rw [idleLoop, flagAt_noSig env h]
    have := ih (c + 1)
    simp only [sleepsOf] at this ⊢
    simp [List.filterMap_cons, this, List.replicate_succ]

theorem seqTail_happy (env : Env) (p c : Nat) (hsig : env.sigTime = none)
    (hpub : ∀ i, (env.pub i).isOk = true) :
    seqTail env p c =
      ([.request c helloReq, .sleep (c + 1) 1,
        .request (c + 1) moveForwardReq, .sleep (c + 2) 3,
        .request (c + 2) moveBackwardReq, .sleep (c + 3) 3,
        .request (c + 3) switchAiReq, .sleep (c + 4) 10,
        .request (c + 4) standOutTrueReq, .sleep (c + 5) 5,
        .request (c + 5) standOutFalseReq] ++ idleLoop env (c + 5) 600,
       .ok ()) := by
  have hp : ∀ i, ∃ r, env.pub i = .ok r := by
    intro i
    have := hpub i
    cases h : env.pub i with
    | ok r => exact ⟨r, rfl⟩
    | error e => rw [h] at this; simp [Except.isOk, Except.toBool] at this
  obtain ⟨r0, h0⟩ := hp p
  obtain ⟨r1, h1⟩ := hp (p + 1)
  obtain ⟨r2, h2⟩ := hp (p + 2)
  obtain ⟨r3, h3⟩ := hp (p + 3)
  obtain ⟨r4, h4⟩ := hp (p + 4)
  obtain ⟨r5, h5⟩ := hp (p + 5)
  rw [seqTail, h0, h1, h2, h3, h4, h5]
  simp [flagAt_noSig env hsig]

theorem requestsOf_append (l1 l2 : List Event) :
    requestsOf (l1 ++ l2) = requestsOf l1 ++ requestsOf l2 := by
  simp [requestsOf, List.filterMap_append]

theorem sleepsOf_append (l1 l2 : List Event) :
    sleepsOf (l1 ++ l2) = sleepsOf l1 ++ sleepsOf l2 := by
  simp [sleepsOf, List.filterMap_append]

/-- Full trace of `main`'s body when the connection bootstrap succeeds, the
datachannel opens, every publish succeeds, the query's status code is 0, and
no shutdown signal arrives: the fixed sequence, with the mode switch and its
5-second pause present exactly when the queried mode is not `"normal"`. -/
theorem mainBody_happy (cf : Nat → Except Exn Unit) (pr : Nat → Resp)
    (hconn : (connect_with_retry cf 3).ret = .ok true)
    (hcode : (pr 0).code = 0) :
    mainBody ⟨cf, .ok (), fun i => .ok (pr i), none⟩ =
      if (pr 0).name = "normal" then
        ⟨[.waitDC 1, .request 1 queryModeReq] ++
          ([.request 1 helloReq, .sleep 2 1,
            .request 2 moveForwardReq, .sleep 3 3,
            .request 3 moveBackwardReq, .sleep 4 3,
            .request 4 switchAiReq, .sleep 5 10,
            .request 5 standOutTrueReq, .sleep 6 5,
            .request 6 standOutFalseReq] ++
            idleLoop ⟨cf, .ok (), fun i => .ok (pr i), none⟩ 6 600),
         .ok (), some (pr 0).name⟩
      else
        ⟨[.waitDC 1, .request 1 queryModeReq,
          .request 1 switchNormalReq, .sleep 2 5] ++
          ([.request 2 helloReq, .sleep 3 1,
            .request 3 moveForwardReq, .sleep 4 3,
            .request 4 moveBackwardReq, .sleep 5 3,
            .request 5 switchAiReq, .sleep 6 10,
            .request 6 standOutTrueReq, .sleep 7 5,
            .request 7 standOutFalseReq] ++
            idleLoop ⟨cf, .ok (), fun i => .ok (pr i), none⟩ 7 600),
         .ok (), some (pr 0).name⟩ := by
  have hsig : (Env.mk cf (.ok ()) (fun i => .ok (pr i)) none).sigTime = none := rfl
  have hpub : ∀ i,
      ((Env.mk cf (.ok ()) (fun i => .ok (pr i)) none).pub i).isOk = true :=
    fun i => rfl
  have hst1 := seqTail_happy _ 1 1 hsig hpub
  have hst2 := seqTail_happy _ 2 2 hsig hpub
  by_cases hname : (pr 0).name = "normal"
  · simp [mainBody, hconn, hname, hcode, modeAfterQuery, flagAt, hst1]
  · simp [mainBody, hconn, hname, hcode, modeAfterQuery, flagAt, hst2]


/-! ## Concrete environments for witnesses and counterexamples -/

/-- A connect stub that succeeds immediately. -/
def happyConnect : Nat → Except Exn Unit := fun _ => .ok ()

/-- Publish responses that always succeed with status code 0 and mode
name `"ai"`. -/
def happyResp : Nat → Resp := fun _ => ⟨0, "ai"⟩

/-- Publish responses that always succeed with status code 0 and mode
name `"normal"`. -/
def normalResp : Nat → Resp := fun _ => ⟨0, "normal"⟩

/-- A delivered query response whose nested status code is nonzero. -/
def badResp : Resp := ⟨3102, "mcf"⟩

/-- Environment in which every call succeeds and the shutdown signal
arrives during the pause that follows the `Hello` gesture (wake clock 3 on
the non-`"normal"` path) — the one wake point, together with the pause
after `StandOut`-true, that is not followed by a `kill_now` check. -/
def envKillDuringHello : Env :=
  ⟨happyConnect, .ok (), fun i => .ok (happyResp i), some 3⟩

/-! ## Theorems for the command sequencer -/

/-- C6: with no exception and no shutdown signal (bootstrap succeeds, the
datachannel opens, every publish succeeds, the query code is 0), the
requests go out in exactly the order: mode query, conditional switch to
"normal", Hello, move forward, move backward, switch to "ai",
StandOut-true, StandOut-false — nothing else and nothing twice — the pauses
are the conditional 5s, then 1s, 3s, 3s, 10s, 5s, then 600 idle 1-second
pauses, and the body completes normally. -/
theorem main_request_order (cf : Nat → Except Exn Unit) (pr : Nat → Resp)
    (hconn : (connect_with_retry cf 3).ret = .ok true)
    (hcode : (pr 0).code = 0) :
    requestsOf (mainBody ⟨cf, .ok (), fun i => .ok (pr i), none⟩).trace =
      queryModeReq ::
        ((if (pr 0).name = "normal" then [] else [switchNormalReq]) ++
          [helloReq, moveForwardReq, moveBackwardReq, switchAiReq,
           standOutTrueReq, standOutFalseReq])
    ∧ sleepsOf (mainBody ⟨cf, .ok (), fun i => .ok (pr i), none⟩).trace =
        ((if (pr 0).name = "normal" then [] else [5]) ++
          ([1, 3, 3, 10, 5] ++ List.replicate 600 1))
    ∧ (mainBody ⟨cf, .ok (), fun i => .ok (pr i), none⟩).outcome = .ok () := by
  have h := mainBody_happy cf pr hconn hcode
  have hsig : (Env.mk cf (.ok ()) (fun i => .ok (pr i)) none).sigTime = none :=
    rfl
  by_cases hname : (pr 0).name = "normal"
  · rw [h]
    simp only [if_pos hname]
    refine ⟨?_, ?_, trivial⟩
    · simp only [requestsOf_append, requestsOf_idleLoop]
      simp [requestsOf]
    · simp only [sleepsOf_append, sleepsOf_idleLoop_noSig _ hsig]
      simp [sleepsOf, -List.reduceReplicate]
  · rw [h]
    simp only [if_neg hname]
    refine ⟨?_, ?_, trivial⟩
    · simp only [requestsOf_append, requestsOf_idleLoop]
      simp [requestsOf]
    · simp only [sleepsOf_append, sleepsOf_idleLoop_noSig _ hsig]
      simp [sleepsOf, -List.reduceReplicate]

/-- C6 witness: the fully successful run with queried mode `"ai"`. -/
theorem main_request_order_witness :
    requestsOf (mainBody ⟨happyConnect, .ok (),
        fun i => .ok (happyResp i), none⟩).trace =
      queryModeReq ::
        ((if (happyResp 0).name = "normal" then [] else [switchNormalReq]) ++
          [helloReq, moveForwardReq, moveBackwardReq, switchAiReq,
           standOutTrueReq, standOutFalseReq])
    ∧ sleepsOf (mainBody ⟨happyConnect, .ok (),
        fun i => .ok (happyResp i), none⟩).trace =
        ((if (happyResp 0).name = "normal" then [] else [5]) ++
          ([1, 3, 3, 10, 5] ++ List.replicate 600 1))
    ∧ (mainBody ⟨happyConnect, .ok (),
        fun i => .ok (happyResp i), none⟩).outcome = .ok () :=
  main_request_order happyConnect happyResp rfl rfl

/-- C5: under the same no-exception, no-signal hypotheses, if the queried
mode is already `"normal"` the 1002/"normal" switch request is never issued
and the pause list starts directly with the 1-second post-Hello pause (no
switch pause); otherwise the switch request immediately follows the query
and its 5-second pause comes first. -/
theorem normal_mode_switch_skip (cf : Nat → Except Exn Unit) (pr : Nat → Resp)
    (hconn : (connect_with_retry cf 3).ret = .ok true)
    (hcode : (pr 0).code = 0) :
    ((pr 0).name = "normal" →
      switchNormalReq ∉
          requestsOf (mainBody ⟨cf, .ok (), fun i => .ok (pr i), none⟩).trace
      ∧ sleepsOf (mainBody ⟨cf, .ok (), fun i => .ok (pr i), none⟩).trace =
          [1, 3, 3, 10, 5] ++ List.replicate 600 1)
    ∧ ((pr 0).name ≠ "normal" →
      (requestsOf (mainBody ⟨cf, .ok (),
          fun i => .ok (pr i), none⟩).trace).take 2 =
        [queryModeReq, switchNormalReq]
      ∧ sleepsOf (mainBody ⟨cf, .ok (), fun i => .ok (pr i), none⟩).trace =
          5 :: ([1, 3, 3, 10, 5] ++ List.replicate 600 1)) := by
  have h := mainBody_happy cf pr hconn hcode
  have hsig : (Env.mk cf (.ok ()) (fun i => .ok (pr i)) none).sigTime = none :=
    rfl
  constructor
  · intro hname
    constructor
    · have hreq : requestsOf (mainBody ⟨cf, .ok (),
          fun i => .ok (pr i), none⟩).trace =
          [queryModeReq, helloReq, moveForwardReq, moveBackwardReq,
           switchAiReq, standOutTrueReq, standOutFalseReq] := by
        rw [h]
        simp only [if_pos hname]
        simp only [requestsOf_append, requestsOf_idleLoop]
        simp [requestsOf]
      rw [hreq]
      decide
    · rw [h]
      simp only [if_pos hname]
      simp only [sleepsOf_append, sleepsOf_idleLoop_noSig _ hsig]
      simp [sleepsOf, -List.reduceReplicate]
  · intro hname
    constructor
    · have hreq : requestsOf (mainBody ⟨cf, .ok (),
          fun i => .ok (pr i), none⟩).trace =
          [queryModeReq, switchNormalReq, helloReq, moveForwardReq,
           moveBackwardReq, switchAiReq, standOutTrueReq,
           standOutFalseReq] := by
        rw [h]
        simp only [if_neg hname]
        simp only [requestsOf_append, requestsOf_idleLoop]
        simp [requestsOf]
      rw [hreq]
      rfl
    · rw [h]
      simp only [if_neg hname]
      simp only [sleepsOf_append, sleepsOf_idleLoop_noSig _ hsig]
      simp [sleepsOf, -List.reduceReplicate]

/-- C5 witness: the run whose queried mode is already `"normal"`. -/
theorem normal_mode_switch_skip_witness :
    ((normalResp 0).name = "normal" →
      switchNormalReq ∉
          requestsOf (mainBody ⟨happyConnect, .ok (),
            fun i => .ok (normalResp i), none⟩).trace
      ∧ sleepsOf (mainBody ⟨happyConnect, .ok (),
            fun i => .ok (normalResp i), none⟩).trace =
          [1, 3, 3, 10, 5] ++ List.replicate 600 1)
    ∧ ((normalResp 0).name ≠ "normal" →
      (requestsOf (mainBody ⟨happyConnect, .ok (),
          fun i => .ok (normalResp i), none⟩).trace).take 2 =
        [queryModeReq, switchNormalReq]
      ∧ sleepsOf (mainBody ⟨happyConnect, .ok (),
            fun i => .ok (normalResp i), none⟩).trace =
          5 :: ([1, 3, 3, 10, 5] ++ List.replicate 600 1)) :=
  normal_mode_switch_skip happyConnect normalResp rfl rfl

/-- C4: when the query response carries a nonzero nested status code, the
guard of line 76 fails, so `current_motion_switcher_mode` is never assigned
from the response: the binding function yields `none`, and at the decision
point of line 82 the variable is still unset, whatever the rest of the
environment does. -/
theorem mode_unset_on_nonzero_code (cf : Nat → Except Exn Unit)
    (dc : Except Exn Unit) (pubs : Nat → Except Exn Resp) (sig : Option Nat)
    (r : Resp) (hpub : pubs 0 = .ok r) (hcode : r.code ≠ 0) :
    modeAfterQuery r.code r.name = none
    ∧ (mainBody ⟨cf, dc, pubs, sig⟩).modeAtDecision = none := by
  have hmode : modeAfterQuery r.code r.name = none := by
    simp [modeAfterQuery, hcode]
  refine ⟨hmode, ?_⟩
  unfold mainBody
  split
  · split
    · rfl
    · split
      · rfl
      · split
        · rfl
        · rename_i resp hresp
          have hr : resp = r := by
            have : (Env.mk cf dc pubs sig).pub 0 = pubs 0 := rfl
            rw [this, hpub] at hresp
            exact ((Except.ok.injEq _ _).mp hresp.symm).symm.symm
          subst hr
          split
          · rfl
          · rename_i m hm
            rw [hmode] at hm
            exact absurd hm (by simp)
  · rfl

/-- C4 witness: a nonzero-code response in an otherwise successful run. -/
theorem mode_unset_on_nonzero_code_witness :
    modeAfterQuery badResp.code badResp.name = none
    ∧ (mainBody ⟨happyConnect, .ok (), fun _ => .ok badResp,
        none⟩).modeAtDecision = none :=
  mode_unset_on_nonzero_code happyConnect (.ok ()) (fun _ => .ok badResp)
    none badResp rfl (by decide)

/-- C7: whatever the environment does — normal completion, an early return
from a `kill_now` check, or an exception raised anywhere in the body,
including from any publish call — nothing escapes `main`'s handler chain,
the cleanup (`finally`) block runs exactly once, and the process exit code
is 0. -/
theorem cleanup_once_exit_zero (env : Env) :
    (mainRun env).cleanupRan = 1
    ∧ (mainRun env).raisedPastMain = none
    ∧ exitCode env = 0 := by
  have hm : (mainRun env).cleanupRan = 1
      ∧ (mainRun env).raisedPastMain = none := by
    cases hb : (mainBody env).outcome with
    | ok u => simp [mainRun, hb]
    | error e => cases e <;> simp [mainRun, hb, catchesExn]
  exact ⟨hm.1, hm.2, by simp [exitCode, hm.2]⟩

/-- C8: when the bootstrap and datachannel succeed, the flag is not yet set
at the post-wait check, and the query response arrives with a nonzero
status code, the comparison of line 82 reads the never-assigned
`current_motion_switcher_mode` and raises `UnboundLocalError`: the only
request ever issued is the mode query (no Hello, no moves, no switches, no
stance commands), the exception lands in the catch-all `except Exception`
handler, and cleanup still runs. -/
theorem nonzero_code_unbound_local (cf : Nat → Except Exn Unit)
    (pubs : Nat → Except Exn Resp) (sig : Option Nat) (r : Resp)
    (hconn : (connect_with_retry cf 3).ret = .ok true)
    (hflag : flagAt ⟨cf, .ok (), pubs, sig⟩ 1 = false)
    (hpub : pubs 0 = .ok r) (hcode : r.code ≠ 0) :
    (mainBody ⟨cf, .ok (), pubs, sig⟩).outcome
        = .error (.unboundLocal "current_motion_switcher_mode")
    ∧ requestsOf (mainBody ⟨cf, .ok (), pubs, sig⟩).trace = [queryModeReq]
    ∧ (mainRun ⟨cf, .ok (), pubs, sig⟩).caught = some .catchAll
    ∧ (mainRun ⟨cf, .ok (), pubs, sig⟩).cleanupRan = 1 := by
  have hb : mainBody ⟨cf, .ok (), pubs, sig⟩ =
      ⟨[.waitDC 1, .request 1 queryModeReq],
       .error (.unboundLocal "current_motion_switcher_mode"), none⟩ := by
    have hmode : modeAfterQuery r.code r.name = none := by
      simp [modeAfterQuery, hcode]
    simp [mainBody, hconn, hflag, hpub, hmode]
  refine ⟨by rw [hb], by rw [hb]; rfl, ?_, ?_⟩ <;>
    simp [mainRun, hb, catchesExn]

/-- C8 witness: a nonzero-code response with no signal and everything else
succeeding. -/
theorem nonzero_code_unbound_local_witness :
    (mainBody ⟨happyConnect, .ok (), fun _ => .ok badResp, none⟩).outcome
        = .error (.unboundLocal "current_motion_switcher_mode")
    ∧ requestsOf (mainBody ⟨happyConnect, .ok (), fun _ => .ok badResp,
        none⟩).trace = [queryModeReq]
    ∧ (mainRun ⟨happyConnect, .ok (), fun _ => .ok badResp,
        none⟩).caught = some .catchAll
    ∧ (mainRun ⟨happyConnect, .ok (), fun _ => .ok badResp,
        none⟩).cleanupRan = 1 :=
  nonzero_code_unbound_local happyConnect (fun _ => .ok badResp) none badResp
    rfl rfl rfl (by decide)

theorem seqTail_killOk (env : Env) (p c : Nat) (hc : flagAt env c = false) :
    ((seqTail env p c).1.all (killOkEvent env)) = true := by
  rw [seqTail]
  cases h0 : env.pub p with
  | error e => simp [killOkEvent, hc]
  | ok r0 =>
    cases h1 : env.pub (p + 1) with
    | error e => simp [killOkEvent, hc]
    | ok r1 =>
      by_cases f2 : flagAt env (c + 2) = true
      · simp [f2, killOkEvent, hc]
      · have f2' : flagAt env (c + 2) = false := by simpa using f2
        cases h2 : env.pub (p + 2) with
        | error e => simp [f2', killOkEvent, hc]
        | ok r2 =>
          by_cases f3 : flagAt env (c + 3) = true
          · simp [f2', f3, killOkEvent, hc]
          · have f3' : flagAt env (c + 3) = false := by simpa using f3
            cases h3 : env.pub (p + 3) with
            | error e => simp [f2', f3', killOkEvent, hc]
            | ok r3 =>
              by_cases f4 : flagAt env (c + 4) = true
              · simp [f2', f3', f4, killOkEvent, hc]
              · have f4' : flagAt env (c + 4) = false := by simpa using f4
                cases h4 : env.pub (p + 4) with
                | error e => simp [f2', f3', f4', killOkEvent, hc]
                | ok r4 =>
                  cases h5 : env.pub (p + 5) with
                  | error e => simp [f2', f3', f4', killOkEvent, hc]
                  | ok r5 =>
                    simp [f2', f3', f4', killOkEvent, hc,
                      idleLoop_all_killOk]

/-- C3 counterexample: with every call succeeding and the shutdown signal
arriving during the pause after `Hello` (wake clock 3), the flag is already
set when that pause wakes, yet the forward-move request is still issued at
clock 3 — so the claim that no request is ever issued after a wake with the
flag set is false. -/
theorem noRequestAfterKill_cex :
    noRequestAfterKill envKillDuringHello = false
    ∧ flagAt envKillDuringHello 3 = true
    ∧ Event.request 3 moveForwardReq ∈ (mainBody envKillDuringHello).trace := by
  have ht : (mainBody envKillDuringHello).trace =
      [.waitDC 1, .request 1 queryModeReq, .request 1 switchNormalReq,
       .sleep 2 5, .request 2 helloReq, .sleep 3 1,
       .request 3 moveForwardReq, .sleep 4 3] := by rfl
  refine ⟨by decide, by decide, ?_⟩
  rw [ht]
  simp

/-- C3 amended: the flag is checked immediately after the datachannel wait,
after the conditional mode-switch pause, after the forward-move pause,
after the backward-move pause, and after the "ai"-switch pause, and before
every idle-loop pause, aborting the rest if set; there is no check after
the 1-second pause following `Hello` nor after the 5-second pause following
`StandOut`-true, so the only requests that can be issued after a wake at
which the flag was already set are the forward move and `StandOut`-false. -/
theorem kill_respected_amended (env : Env) : killRespected env = true := by
  rw [killRespected]
  cases hcr : (connect_with_retry env.connect 3).ret with
  | error e => simp [mainBody, hcr]
  | ok b =>
    cases b with
    | false => simp [mainBody, hcr]
    | true =>
      cases hdc : env.dcOpen with
      | error e => simp [mainBody, hcr, hdc]
      | ok u =>
        by_cases f1 : flagAt env 1 = true
        · simp [mainBody, hcr, hdc, f1, killOkEvent]
        · have f1' : flagAt env 1 = false := by simpa using f1
          cases hp0 : env.pub 0 with
          | error e => simp [mainBody, hcr, hdc, f1', hp0, killOkEvent]
          | ok resp =>
            cases hmq : modeAfterQuery resp.code resp.name with
            | none => simp [mainBody, hcr, hdc, f1', hp0, hmq, killOkEvent]
            | some m =>
              by_cases hm : m = "normal"
              · have hst := seqTail_killOk env 1 1 f1'
                simp [mainBody, hcr, hdc, f1', hp0, hmq, hm, killOkEvent, hst]
              · cases hp1 : env.pub 1 with
                | error e =>
                  simp [mainBody, hcr, hdc, f1', hp0, hmq, hm, hp1,
                    killOkEvent]
                | ok r1 =>
                  by_cases f2 : flagAt env 2 = true
                  · simp [mainBody, hcr, hdc, f1', hp0, hmq, hm, hp1, f2,
                      killOkEvent]
                  · have f2' : flagAt env 2 = false := by simpa using f2
                    have hst := seqTail_killOk env 2 2 f2'
                    simp [mainBody, hcr, hdc, f1', hp0, hmq, hm, hp1, f2',
                      killOkEvent, hst]
